import Mathlib

/-!
Verification development for the lttng-ust application-context subsystem:
the dynamic type table (src/liblttng-ust/lttng-ust-dynamic-type.c) and the
context provider registry / context field builder
(src/liblttng-ust/lttng-context-provider.c).

C strings are modelled as `List Char` (NUL-free byte sequences); machine
integer return codes as `Int`; function pointers as opaque tokens with
decidable equality; the fallible collaborators that live outside the
sources at hand (the serialization lock, the allocator, the RCU append
primitive) as explicit oracle inputs.
-/

namespace LttngUst

/-! ## Errno constants (POSIX values used by the sources) -/

def EINVAL : Int := 22
def EBUSY : Int := 16
def EEXIST : Int := 17
def ENOMEM : Int := 12

/-! ## Dynamic type table (lttng-ust-dynamic-type.c) -/

/-- Ordinal of `LTTNG_UST_DYNAMIC_TYPE_NONE` in the dynamic-type kind
enumeration. The enumeration (header outside the sources at hand) is the
closed ordered list {none, int8, int16, int32, int64, uint8, uint16,
uint32, uint64, float, double, string} with default C numbering 0..11. -/
def LTTNG_UST_DYNAMIC_TYPE_NONE : Nat := 0

/-- `_NR_LTTNG_UST_DYNAMIC_TYPES`: number of dynamic kinds. -/
def NR_LTTNG_UST_DYNAMIC_TYPES : Nat := 12

/-- One bound of an enum entry range: `.signedness` and `.value`
(struct lttng_ust_enum_entry start/end members). -/
structure RangeVal where
  signedness : Bool
  value : Int
deriving DecidableEq

/-- `struct lttng_ust_enum_entry`: a range [start, stop] with a mapping
string. (`end` is a Lean keyword, so the end bound is named `stop`.) -/
structure EnumEntry where
  start : RangeVal
  stop : RangeVal
  str : String
deriving DecidableEq

/-- The `ctf_enum_value(_string, _value)` compound-literal macro: a
singleton range whose start and end both hold `_value`; the C value
arguments are `int` literals, hence signed. -/
def ctf_enum_value (s : String) (v : Int) : EnumEntry :=
  { start := { signedness := true, value := v },
    stop := { signedness := true, value := v },
    str := s }

/-- `dt_enum`: the tag enumeration entries, indexed by dynamic kind. -/
def dt_enum : List EnumEntry :=
  [ ctf_enum_value "_none" 0,
    ctf_enum_value "_int8" 1,
    ctf_enum_value "_int16" 2,
    ctf_enum_value "_int32" 3,
    ctf_enum_value "_int64" 4,
    ctf_enum_value "_uint8" 5,
    ctf_enum_value "_uint16" 6,
    ctf_enum_value "_uint32" 7,
    ctf_enum_value "_uint64" 8,
    ctf_enum_value "_float" 9,
    ctf_enum_value "_double" 10,
    ctf_enum_value "_string" 11 ]

/-- String encodings of `struct lttng_ust_type_string`. -/
inductive StrEncoding where
  | utf8
  | ascii
deriving DecidableEq

/-- The discriminated type payload of `struct lttng_ust_type_common`
and its per-kind extensions, keeping the data the table initializers
set: struct arity/alignment, integer width/signedness, float width,
string encoding, enum descriptor name, and the dynamic tag. -/
inductive TypeCommon where
  | tstruct (nr_fields : Nat) (alignment : Nat)
  | tinteger (bits : Nat) (signed : Bool)
  | tfloat (bits : Nat)
  | tstring (encoding : StrEncoding)
  | tenum (descName : String)
  | tdynamic
deriving DecidableEq

/-- The `lttng_ust_type_integer_define(type, byte_order, base)` macro
(header outside the sources at hand), keeping the width and signedness
of the C type argument; byte order is the native one and base is 10 for
every use in this file, so neither is recorded. -/
def lttng_ust_type_integer_define (bits : Nat) (signed : Bool) : TypeCommon :=
  TypeCommon.tinteger bits signed

/-- `struct lttng_ust_event_field`: name (NULL modelled as `none`),
type, nowrite flag. -/
structure EventField where
  name : Option String
  ftype : TypeCommon
  nowrite : Bool
deriving DecidableEq

/-- `dt_var_fields`: the immutable per-kind field descriptors, in kind
ordinal order (designated initializers [LTTNG_UST_DYNAMIC_TYPE_NONE] ..
[LTTNG_UST_DYNAMIC_TYPE_STRING]). -/
def dt_var_fields : List EventField :=
  [ { name := some "none", ftype := TypeCommon.tstruct 0 0, nowrite := false },
    { name := some "int8", ftype := lttng_ust_type_integer_define 8 true, nowrite := false },
    { name := some "int16", ftype := lttng_ust_type_integer_define 16 true, nowrite := false },
    { name := some "int32", ftype := lttng_ust_type_integer_define 32 true, nowrite := false },
    { name := some "int64", ftype := lttng_ust_type_integer_define 64 true, nowrite := false },
    { name := some "uint8", ftype := lttng_ust_type_integer_define 8 false, nowrite := false },
    { name := some "uint16", ftype := lttng_ust_type_integer_define 16 false, nowrite := false },
    { name := some "uint32", ftype := lttng_ust_type_integer_define 32 false, nowrite := false },
    { name := some "uint64", ftype := lttng_ust_type_integer_define 64 false, nowrite := false },
    { name := some "float", ftype := TypeCommon.tfloat 32, nowrite := false },
    { name := some "double", ftype := TypeCommon.tfloat 64, nowrite := false },
    { name := some "string", ftype := TypeCommon.tstring StrEncoding.utf8, nowrite := false } ]

/-- `dt_enum_desc`: the named enumeration descriptor for the tag. -/
structure EnumDesc where
  name : String
  entries : List EnumEntry
  nr_entries : Nat
deriving DecidableEq

def dt_enum_desc : EnumDesc :=
  { name := "dynamic_type_enum", entries := dt_enum, nr_entries := dt_enum.length }

/-- `dt_enum_field`: the single tag/discriminant field descriptor (name
NULL, type the named enumeration over a char container). -/
def dt_enum_field : EventField :=
  { name := none, ftype := TypeCommon.tenum dt_enum_desc.name, nowrite := false }

/-- `lttng_ust_dynamic_type_field(int64_t value)`: bound check then
table index; NULL on out-of-range. -/
def lttng_ust_dynamic_type_field (value : Int) : Option EventField :=
  if (NR_LTTNG_UST_DYNAMIC_TYPES : Int) ≤ value ∨ value < 0 then none
  else dt_var_fields[value.toNat]?

/-- `lttng_ust_dynamic_type_choices`: the full descriptor list and its
length, for one-time schema generation. -/
def lttng_ust_dynamic_type_choices : Nat × List EventField :=
  (NR_LTTNG_UST_DYNAMIC_TYPES, dt_var_fields)

/-- `lttng_ust_dynamic_type_tag_field`: the tag descriptor. -/
def lttng_ust_dynamic_type_tag_field : EventField := dt_enum_field

/-- Ordinal of a field descriptor: its index in `dt_var_fields`. -/
def fieldOrdinal (f : EventField) : Nat := dt_var_fields.indexOf f

/-! ## C string primitives (lttng-context-provider.c collaborators) -/

/-- A C string: the NUL-free character sequence before the terminator. -/
abbrev Str := List Char

/-- C `strncmp(a, b, n)`: compare at most `n` characters, stopping at a
terminating NUL (here: the end of the list); returns 0 on equality, a
negative value when `a` orders below `b`, positive above. -/
def strncmp : Str → Str → Nat → Int
  | _, _, 0 => 0
  | [], [], _ + 1 => 0
  | [], _ :: _, _ + 1 => -1
  | _ :: _, [], _ + 1 => 1
  | a :: as, b :: bs, n + 1 =>
      if a = b then strncmp as bs n
      else if a.toNat < b.toNat then -1 else 1

/-- The reserved application prefix `"$app."`. -/
def appDot : Str := "$app.".data

/-- Modelled from the spec: `jhash` (jhash.h is outside the sources at
hand). The spec requires only a deterministic hash over the key bytes
used for bucket selection; modelled as a 32-bit polynomial hash. -/
def jhash (key : Str) : Nat :=
  key.foldl (fun h c => (h * 16777619 + c.toNat) % 4294967296) 2166136261

/-- `CONTEXT_PROVIDER_HT_SIZE = 1 << 12`. -/
def CONTEXT_PROVIDER_HT_SIZE : Nat := 4096

/-! ## Provider registry (lttng-context-provider.c) -/

/-- A callback function pointer: the two possible referents are the
no-op stand-ins (`lttng_ust_dummy_*`, defined outside the sources at
hand) and application-supplied functions, identified by an opaque id.
Pointer copy and pointer equality are token copy and token equality. -/
inductive FnPtr where
  | dummy_get_size
  | dummy_record
  | dummy_get_value
  | fn (id : Nat)
deriving DecidableEq

/-- A provider callback triple. -/
structure Triple where
  get_size : FnPtr
  record : FnPtr
  get_value : FnPtr
deriving DecidableEq

/-- The no-op stand-in triple used pre-registration and after
unregistration. -/
def dummyTriple : Triple :=
  { get_size := FnPtr.dummy_get_size,
    record := FnPtr.dummy_record,
    get_value := FnPtr.dummy_get_value }

/-- `struct lttng_ust_context_provider`: name plus callback triple
(the hlist node linkage is implicit in the table structure below). -/
structure Provider where
  name : Str
  get_size : FnPtr
  record : FnPtr
  get_value : FnPtr
deriving DecidableEq

/-- The provider hash table, as a partial map from bucket index to
hlist chain; an absent bucket is an empty chain. -/
abbrev Htable := List (Nat × List Provider)

def getBucket : Htable → Nat → List Provider
  | [], _ => []
  | (j, c) :: t, i => if j = i then c else getBucket t i

def setBucket : Htable → Nat → List Provider → Htable
  | [], i, c => [(i, c)]
  | (j, d) :: t, i, c => if j = i then (i, c) :: t else (j, d) :: setBucket t i c

/-- All providers reachable from the table, over all chains. -/
def providersOf (t : Htable) : List Provider := (t.map Prod.snd).flatten

/-- `cds_hlist_del`: unlink a provider node from whichever chain holds it. -/
def delProvider (t : Htable) (p : Provider) : Htable :=
  t.map (fun b => (b.1, b.2.erase p))

/-- Modelled from the spec: one external default-binding slot set
(`lttng_ust_context_set_session_provider` /
`lttng_ust_context_set_event_notifier_group_provider` live outside the
sources at hand). The spec describes them as name-keyed slots holding a
callback triple, overwritten on (un)registration; modelled as an
insert-or-replace association list. -/
abbrev Slots := List (Str × Triple)

def setSlot : Slots → Str → Triple → Slots
  | [], n, t => [(n, t)]
  | (m, u) :: s, n, t => if m = n then (n, t) :: s else (m, u) :: setSlot s n t

/-- The registry state: the hash table and the two external
default-binding slot sets (session-scoped, event-notifier-group-scoped). -/
structure RegState where
  table : Htable
  sessionSlots : Slots
  notifierSlots : Slots
deriving DecidableEq

/-- Ordered record of the externally visible actions `unregister`
takes under the lock. -/
inductive Effect where
  | setSession (n : Str) (t : Triple)
  | setNotifier (n : Str) (t : Triple)
  | hlistDel (n : Str)
deriving DecidableEq

/-- `lookup_provider_by_name`: hash and compare only the substring of
`name` preceding the first separator character, then scan that bucket's
chain and return the first match. -/
def lookup_provider_by_name (t : Htable) (name : Str) : Option Provider :=
  let pre := name.takeWhile (fun c => c != ':')
  let len := pre.length
  let h := jhash pre &&& (CONTEXT_PROVIDER_HT_SIZE - 1)
  (getBucket t h).find? (fun p => strncmp p.name name len == 0)

/-- `lttng_ust_context_provider_register`. The serialization lock
(`ust_lock`, outside the sources at hand) is fallible; its outcome is
the oracle input `lockFail`. Returns the C return value and the new
registry state. -/
def lttng_ust_context_provider_register (lockFail : Bool) (p : Provider)
    (st : RegState) : Int × RegState :=
  if strncmp appDot p.name appDot.length ≠ 0 then (-EINVAL, st)
  else if p.name.contains ':' then (-EINVAL, st)
  else if lockFail then (-EBUSY, st)
  else if (lookup_provider_by_name st.table p.name).isSome then (-EBUSY, st)
  else
    let h := jhash p.name &&& (CONTEXT_PROVIDER_HT_SIZE - 1)
    (0, { table := setBucket st.table h (p :: getBucket st.table h),
          sessionSlots := setSlot st.sessionSlots p.name
            { get_size := p.get_size, record := p.record, get_value := p.get_value },
          notifierSlots := setSlot st.notifierSlots p.name
            { get_size := p.get_size, record := p.record, get_value := p.get_value } })

/-- `lttng_ust_context_provider_unregister`: best-effort; on lock
failure returns with no state change, otherwise resets both slot sets
to the no-op stand-ins and unlinks the provider. Also returns the
ordered list of external actions taken. -/
def lttng_ust_context_provider_unregister (lockFail : Bool) (p : Provider)
    (st : RegState) : RegState × List Effect :=
  if lockFail then (st, [])
  else
    ({ table := delProvider st.table p,
       sessionSlots := setSlot st.sessionSlots p.name dummyTriple,
       notifierSlots := setSlot st.notifierSlots p.name dummyTriple },
     [Effect.setSession p.name dummyTriple,
      Effect.setNotifier p.name dummyTriple,
      Effect.hlistDel p.name])

/-! ## Context field builder (lttng_ust_add_app_context_to_ctx_rcu) -/

/-- One published context field: field description (name, type tagged
`lttng_ust_type_dynamic`) and the bound callback triple. -/
structure CtxField where
  name : Str
  ftype : TypeCommon
  get_size : FnPtr
  record : FnPtr
  get_value : FnPtr
deriving DecidableEq

/-- The context array: ordered sequence of fields. A NULL `*ctx`
pointer is `Option.none` at the call sites below. -/
abbrev Ctx := List CtxField

/-- Modelled from the spec: `lttng_find_context` (declared in
context-internal.h, defined outside the sources at hand) — whether the
array already contains a field named `name`. -/
def lttng_find_context (c : Ctx) (name : Str) : Bool :=
  c.any (fun f => f.name == name)

/-- The four heap blocks `lttng_ust_add_app_context_to_ctx_rcu`
acquires, in acquisition order: the field record, its nested
field-description record, the name copy, the type descriptor. -/
inductive AllocTag where
  | fieldRec
  | eventFieldRec
  | nameCopy
  | typeDesc
deriving DecidableEq

/-- One allocator interaction: a successful allocation or a release. -/
inductive MemEvt where
  | alloc (t : AllocTag)
  | free (t : AllocTag)
deriving DecidableEq

/-- Oracle for the fallible collaborators of one
`lttng_ust_add_app_context_to_ctx_rcu` call: success of each of the
four allocations, and the return value of the external append
primitive `lttng_context_add_rcu` (0 = success). -/
structure AllocOracle where
  fieldOk : Bool
  eventFieldOk : Bool
  nameOk : Bool
  typeOk : Bool
  appendRet : Int
deriving DecidableEq

/-- Modelled from the spec: `lttng_context_add_rcu` (declared in
context-internal.h, defined outside the sources at hand) — on success
publishes a new array of length N+1 holding the N existing entries then
the new one; on failure returns its error and leaves the array alone.
Whether it fails is the oracle's `appendRet`. -/
def lttng_context_add_rcu (o : AllocOracle) (ctx : Option Ctx) (f : CtxField) :
    Int × Option Ctx :=
  if o.appendRet = 0 then (0, some (ctx.getD [] ++ [f])) else (o.appendRet, ctx)

/-- Allocation events of the first `n` acquisitions, in order. -/
def allocSeq (n : Nat) : List MemEvt :=
  ([AllocTag.fieldRec, AllocTag.eventFieldRec, AllocTag.nameCopy,
    AllocTag.typeDesc].take n).map MemEvt.alloc

/-- Release events of the first `n` acquisitions, in reverse order. -/
def freeSeq (n : Nat) : List MemEvt :=
  (([AllocTag.fieldRec, AllocTag.eventFieldRec, AllocTag.nameCopy,
    AllocTag.typeDesc].take n).map MemEvt.free).reverse

/-- `lttng_ust_add_app_context_to_ctx_rcu(name, ctx)`: duplicate check,
four allocations, registry lookup and callback binding, publication via
the append primitive, reverse-order rollback on failure. Returns the C
return value, the resulting array, and the ordered allocator trace. -/
def lttng_ust_add_app_context_to_ctx_rcu (st : RegState) (o : AllocOracle)
    (name : Str) (ctx : Option Ctx) : Int × Option Ctx × List MemEvt :=
  if (match ctx with
      | some c => lttng_find_context c name
      | none => false) then
    (-EEXIST, ctx, [])
  else if !o.fieldOk then (-ENOMEM, ctx, [])
  else if !o.eventFieldOk then (-ENOMEM, ctx, allocSeq 1 ++ freeSeq 1)
  else if !o.nameOk then (-ENOMEM, ctx, allocSeq 2 ++ freeSeq 2)
  else if !o.typeOk then (-ENOMEM, ctx, allocSeq 3 ++ freeSeq 3)
  else
    let cbs : Triple :=
      match lookup_provider_by_name st.table name with
      | some p => { get_size := p.get_size, record := p.record, get_value := p.get_value }
      | none => dummyTriple
    let f : CtxField :=
      { name := name, ftype := TypeCommon.tdynamic,
        get_size := cbs.get_size, record := cbs.record, get_value := cbs.get_value }
    let r := lttng_context_add_rcu o ctx f
    if r.1 ≠ 0 then (r.1, ctx, allocSeq 4 ++ freeSeq 4)
    else (0, r.2, allocSeq 4)

/-- The allocation tags of a trace's `alloc` events, in order. -/
def allocsOf (tr : List MemEvt) : List AllocTag :=
  tr.filterMap (fun e => match e with | MemEvt.alloc t => some t | _ => none)

/-- The allocation tags of a trace's `free` events, in order. -/
def freesOf (tr : List MemEvt) : List AllocTag :=
  tr.filterMap (fun e => match e with | MemEvt.free t => some t | _ => none)

/-! ## Sample data for concrete instantiations -/

def emptyRegState : RegState :=
  { table := [], sessionSlots := [], notifierSlots := [] }

def sampleProvider : Provider :=
  { name := "$app.myprov".data, get_size := FnPtr.fn 1,
    record := FnPtr.fn 2, get_value := FnPtr.fn 3 }

def badNameProvider : Provider :=
  { name := "not.app.prefixed".data, get_size := FnPtr.fn 1,
    record := FnPtr.fn 2, get_value := FnPtr.fn 3 }

def cleanOracle : AllocOracle :=
  { fieldOk := true, eventFieldOk := true, nameOk := true, typeOk := true,
    appendRet := 0 }

def dupField : CtxField :=
  { name := "$app.dup".data, ftype := TypeCommon.tdynamic,
    get_size := FnPtr.dummy_get_size, record := FnPtr.dummy_record,
    get_value := FnPtr.dummy_get_value }

/-! ## Theorems -/

/-- C1: for every integer `k` with `0 <= k < 12`, `fieldFor(k)`
(`lttng_ust_dynamic_type_field`) returns the immutable field descriptor
at ordinal `k`, with `ordinal(fieldFor(k)) = k`; for every `k` outside
that range it returns none. (Determinism across repeated calls is the
purity of the embedding: the function is a pure map of its argument.) -/
theorem dynamic_type_field_total_bijective (k : Int) :
    ((0 ≤ k ∧ k < 12) →
      ∃ f, lttng_ust_dynamic_type_field k = some f ∧ fieldOrdinal f = k.toNat) ∧
    ((k < 0 ∨ 12 ≤ k) → lttng_ust_dynamic_type_field k = none) := by
  constructor
  · rintro ⟨h1, h2⟩
    interval_cases k <;> exact ⟨_, rfl, by decide⟩
  · intro h
    have hc : (NR_LTTNG_UST_DYNAMIC_TYPES : Int) ≤ k ∨ k < 0 := by
      simp only [NR_LTTNG_UST_DYNAMIC_TYPES]
      omega
    simp [lttng_ust_dynamic_type_field, hc]

theorem dynamic_type_field_total_bijective_w :
    (∃ f, lttng_ust_dynamic_type_field 3 = some f ∧ fieldOrdinal f = (3 : Int).toNat) ∧
    lttng_ust_dynamic_type_field 999 = none :=
  ⟨(dynamic_type_field_total_bijective 3).1 (by decide),
   (dynamic_type_field_total_bijective 999).2 (by decide)⟩

/-- C10: the tag descriptor's enumeration has exactly one entry per
dynamic kind (12 entries), and the entry for kind `k` is a singleton
range whose start value and end value both equal `k`: the wire
discriminant for a kind is exactly its ordinal. -/
theorem dt_enum_singleton_ranges :
    dt_enum_desc.nr_entries = 12 ∧ dt_enum.length = 12 ∧
    ∀ k : Fin 12, (dt_enum[k.val]?).any
      (fun e => e.start.value == (k.val : Int) && e.stop.value == (k.val : Int)) = true := by
  decide

/-- C2: registering a provider whose name lacks the reserved `"$app."`
prefix or contains the separator character fails with `-EINVAL` and
leaves the registry state (hash table and both default-binding slot
sets) unchanged, whatever the lock outcome. -/
theorem register_invalid_name (lf : Bool) (p : Provider) (st : RegState)
    (h : strncmp appDot p.name appDot.length ≠ 0 ∨ p.name.contains ':' = true) :
    lttng_ust_context_provider_register lf p st = (-EINVAL, st) := by
  unfold lttng_ust_context_provider_register
  rcases h with h | h
  · rw [if_pos h]
  · by_cases h2 : strncmp appDot p.name appDot.length ≠ 0
    · rw [if_pos h2]
    · rw [if_neg h2, if_pos h]

theorem register_invalid_name_w :
    lttng_ust_context_provider_register false badNameProvider emptyRegState =
      (-EINVAL, emptyRegState) :=
  register_invalid_name false badNameProvider emptyRegState (Or.inl (by decide))

/-- C4: adding a context field under a name the array already contains
fails with `-EEXIST` before any allocation (empty allocator trace) and
leaves the array unchanged. -/
theorem add_app_context_duplicate (st : RegState) (o : AllocOracle) (name : Str)
    (c : Ctx) (h : lttng_find_context c name = true) :
    lttng_ust_add_app_context_to_ctx_rcu st o name (some c) = (-EEXIST, some c, []) := by
  unfold lttng_ust_add_app_context_to_ctx_rcu
  simp [h]

theorem add_app_context_duplicate_w :
    lttng_ust_add_app_context_to_ctx_rcu emptyRegState cleanOracle "$app.dup".data
      (some [dupField]) = (-EEXIST, some [dupField], []) :=
  add_app_context_duplicate emptyRegState cleanOracle "$app.dup".data [dupField] (by decide)

/-- C3: for a well-formed provider name, registration returns `-EBUSY`
exactly when the lock could not be obtained or a provider with the same
name-prefix is already registered (both cases yield the identical
value), and in either case the registry state is unchanged. -/
theorem register_busy_iff (lf : Bool) (p : Provider) (st : RegState)
    (h1 : strncmp appDot p.name appDot.length = 0)
    (h2 : p.name.contains ':' = false) :
    ((lttng_ust_context_provider_register lf p st).1 = -EBUSY ↔
      lf = true ∨ (lookup_provider_by_name st.table p.name).isSome = true) ∧
    ((lf = true ∨ (lookup_provider_by_name st.table p.name).isSome = true) →
      (lttng_ust_context_provider_register lf p st).2 = st) := by
  unfold lttng_ust_context_provider_register
  rw [if_neg (by simp [h1]), if_neg (by rw [h2]; decide)]
  cases lf
  · by_cases h3 : (lookup_provider_by_name st.table p.name).isSome = true
    · simp [h3, EBUSY]
    · simp [h3, EBUSY]
  · simp [EBUSY]

theorem register_busy_iff_w :
    ((lttng_ust_context_provider_register true sampleProvider emptyRegState).1 = -EBUSY ↔
      true = true ∨ (lookup_provider_by_name emptyRegState.table sampleProvider.name).isSome = true) ∧
    ((true = true ∨ (lookup_provider_by_name emptyRegState.table sampleProvider.name).isSome = true) →
      (lttng_ust_context_provider_register true sampleProvider emptyRegState).2 = emptyRegState) :=
  register_busy_iff true sampleProvider emptyRegState (by decide) (by decide)

/-- C8: `unregister` on lock-acquisition failure returns with no state
change and takes no external action; on lock acquisition it first
resets both external default-binding slot sets for the provider's name
to the no-op stand-ins (session-scoped then notifier-group-scoped) and
then unlinks the provider from its hash bucket, in that order. -/
theorem unregister_best_effort (lf : Bool) (p : Provider) (st : RegState) :
    (lf = true → lttng_ust_context_provider_unregister lf p st = (st, [])) ∧
    (lf = false →
      lttng_ust_context_provider_unregister lf p st =
        ({ table := delProvider st.table p,
           sessionSlots := setSlot st.sessionSlots p.name dummyTriple,
           notifierSlots := setSlot st.notifierSlots p.name dummyTriple },
         [Effect.setSession p.name dummyTriple,
          Effect.setNotifier p.name dummyTriple,
          Effect.hlistDel p.name])) := by
  cases lf <;> simp [lttng_ust_context_provider_unregister]

theorem unregister_best_effort_w :
    lttng_ust_context_provider_unregister true sampleProvider emptyRegState =
      (emptyRegState, []) :=
  (unregister_best_effort true sampleProvider emptyRegState).1 rfl

/-- C5: on every failing exit of `lttng_ust_add_app_context_to_ctx_rcu`
the array is unchanged and the releases are exactly the successful
acquisitions in strict reverse order; when the four allocations succeed
and the append primitive fails, its error is returned unchanged and the
trace is precisely field record, field-description, name copy, type
descriptor acquired then released in reverse. -/
theorem add_app_context_rollback :
    (∀ st o name ctx ret ctx2 tr,
      lttng_ust_add_app_context_to_ctx_rcu st o name ctx = (ret, ctx2, tr) →
      ret ≠ 0 → ctx2 = ctx ∧ freesOf tr = (allocsOf tr).reverse) ∧
    (∀ st o name ctx, o.fieldOk = true → o.eventFieldOk = true → o.nameOk = true →
      o.typeOk = true →
      (match ctx with | some c => lttng_find_context c name | none => false) = false →
      o.appendRet ≠ 0 →
      lttng_ust_add_app_context_to_ctx_rcu st o name ctx =
        (o.appendRet, ctx,
         [MemEvt.alloc AllocTag.fieldRec, MemEvt.alloc AllocTag.eventFieldRec,
          MemEvt.alloc AllocTag.nameCopy, MemEvt.alloc AllocTag.typeDesc,
          MemEvt.free AllocTag.typeDesc, MemEvt.free AllocTag.nameCopy,
          MemEvt.free AllocTag.eventFieldRec, MemEvt.free AllocTag.fieldRec])) := by
  constructor
  · intro st o name ctx ret ctx2 tr h hret
    unfold lttng_ust_add_app_context_to_ctx_rcu at h
    split_ifs at h
    · cases h; exact ⟨rfl, by decide⟩
    · cases h; exact ⟨rfl, by decide⟩
    · cases h; exact ⟨rfl, by decide⟩
    · cases h; exact ⟨rfl, by decide⟩
    · cases h; exact ⟨rfl, by decide⟩
    · simp only [lttng_context_add_rcu] at h
      by_cases happ : o.appendRet = 0
      · simp [happ] at h
        exact absurd h.1.symm hret
      · simp [happ] at h
        obtain ⟨h1, h2, h3⟩ := h
        subst h1 h2 h3
        exact ⟨rfl, by decide⟩
  · intro st o name ctx h1 h2 h3 h4 hdup happ
    unfold lttng_ust_add_app_context_to_ctx_rcu
    simp [h1, h2, h3, h4, hdup, lttng_context_add_rcu, happ, allocSeq, freeSeq]

theorem add_app_context_rollback_w :
    ((none : Option Ctx) = none ∧
      freesOf [MemEvt.alloc AllocTag.fieldRec, MemEvt.alloc AllocTag.eventFieldRec,
        MemEvt.alloc AllocTag.nameCopy, MemEvt.alloc AllocTag.typeDesc,
        MemEvt.free AllocTag.typeDesc, MemEvt.free AllocTag.nameCopy,
        MemEvt.free AllocTag.eventFieldRec, MemEvt.free AllocTag.fieldRec] =
      (allocsOf [MemEvt.alloc AllocTag.fieldRec, MemEvt.alloc AllocTag.eventFieldRec,
        MemEvt.alloc AllocTag.nameCopy, MemEvt.alloc AllocTag.typeDesc,
        MemEvt.free AllocTag.typeDesc, MemEvt.free AllocTag.nameCopy,
        MemEvt.free AllocTag.eventFieldRec, MemEvt.free AllocTag.fieldRec]).reverse) ∧
    lttng_ust_add_app_context_to_ctx_rcu emptyRegState
      { fieldOk := true, eventFieldOk := true, nameOk := true, typeOk := true,
        appendRet := -5 } "$app.x".data none =
      (-5, none,
       [MemEvt.alloc AllocTag.fieldRec, MemEvt.alloc AllocTag.eventFieldRec,
        MemEvt.alloc AllocTag.nameCopy, MemEvt.alloc AllocTag.typeDesc,
        MemEvt.free AllocTag.typeDesc, MemEvt.free AllocTag.nameCopy,
        MemEvt.free AllocTag.eventFieldRec, MemEvt.free AllocTag.fieldRec]) :=
  ⟨add_app_context_rollback.1 emptyRegState
      { fieldOk := true, eventFieldOk := true, nameOk := true, typeOk := true,
        appendRet := -5 } "$app.x".data none (-5) none
      [MemEvt.alloc AllocTag.fieldRec, MemEvt.alloc AllocTag.eventFieldRec,
       MemEvt.alloc AllocTag.nameCopy, MemEvt.alloc AllocTag.typeDesc,
       MemEvt.free AllocTag.typeDesc, MemEvt.free AllocTag.nameCopy,
       MemEvt.free AllocTag.eventFieldRec, MemEvt.free AllocTag.fieldRec]
      (by decide) (by decide),
   add_app_context_rollback.2 emptyRegState
      { fieldOk := true, eventFieldOk := true, nameOk := true, typeOk := true,
        appendRet := -5 } "$app.x".data none rfl rfl rfl rfl rfl (by decide)⟩

/-- The registry state after successfully registering `sampleProvider`
into the empty registry. -/
def registeredState : RegState :=
  (lttng_ust_context_provider_register false sampleProvider emptyRegState).2

/-- C6: when all allocations succeed and the append primitive succeeds,
the published field's callback triple equals the callbacks of the
provider the registry lookup found, copied by value at construction
time; when the lookup finds none, the triple equals the no-op stand-in
tokens (whose modelled behaviour is size 0, record nothing, value kind
none). -/
theorem add_app_context_binds_callbacks (st : RegState) (o : AllocOracle)
    (name : Str) (ctx : Option Ctx)
    (h1 : o.fieldOk = true) (h2 : o.eventFieldOk = true) (h3 : o.nameOk = true)
    (h4 : o.typeOk = true)
    (hdup : (match ctx with | some c => lttng_find_context c name | none => false) = false)
    (happ : o.appendRet = 0) :
    (∀ q, lookup_provider_by_name st.table name = some q →
      lttng_ust_add_app_context_to_ctx_rcu st o name ctx =
        (0, some (ctx.getD [] ++
          [{ name := name, ftype := TypeCommon.tdynamic,
             get_size := q.get_size, record := q.record, get_value := q.get_value }]),
         allocSeq 4)) ∧
    (lookup_provider_by_name st.table name = none →
      lttng_ust_add_app_context_to_ctx_rcu st o name ctx =
        (0, some (ctx.getD [] ++
          [{ name := name, ftype := TypeCommon.tdynamic,
             get_size := FnPtr.dummy_get_size, record := FnPtr.dummy_record,
             get_value := FnPtr.dummy_get_value }]),
         allocSeq 4)) := by
  constructor
  · intro q hq
    unfold lttng_ust_add_app_context_to_ctx_rcu
    simp [h1, h2, h3, h4, hdup, hq, lttng_context_add_rcu, happ]
  · intro hq
    unfold lttng_ust_add_app_context_to_ctx_rcu
    simp [h1, h2, h3, h4, hdup, hq, lttng_context_add_rcu, happ, dummyTriple]

theorem add_app_context_binds_callbacks_w :
    lttng_ust_add_app_context_to_ctx_rcu registeredState cleanOracle
      "$app.myprov:instA".data none =
      (0, some [{ name := "$app.myprov:instA".data, ftype := TypeCommon.tdynamic,
                  get_size := FnPtr.fn 1, record := FnPtr.fn 2,
                  get_value := FnPtr.fn 3 }],
       allocSeq 4) :=
  (add_app_context_binds_callbacks registeredState cleanOracle
      "$app.myprov:instA".data none rfl rfl rfl rfl rfl rfl).1
    sampleProvider (by decide)

/-- C9: `lttng_ust_add_app_context_to_ctx_rcu` performs no validation
of the name's shape: it never returns `-EINVAL` of its own (only a
propagated append error could carry that value), and when every
allocation and the append succeed the only failure is the
duplicate-name case. -/
theorem add_app_context_no_name_validation :
    (∀ st o name ctx, o.appendRet ≠ -EINVAL →
      (lttng_ust_add_app_context_to_ctx_rcu st o name ctx).1 ≠ -EINVAL) ∧
    (∀ st o name ctx, o.fieldOk = true → o.eventFieldOk = true → o.nameOk = true →
      o.typeOk = true → o.appendRet = 0 →
      (lttng_ust_add_app_context_to_ctx_rcu st o name ctx).1 = 0 ∨
      ((lttng_ust_add_app_context_to_ctx_rcu st o name ctx).1 = -EEXIST ∧
       (match ctx with | some c => lttng_find_context c name | none => false) = true)) ∧
    (∀ st o name ctx, o.fieldOk = true → o.eventFieldOk = true → o.nameOk = true →
      o.typeOk = true → o.appendRet = 0 →
      (match ctx with | some c => lttng_find_context c name | none => false) = false →
      lookup_provider_by_name st.table name = none →
      lttng_ust_add_app_context_to_ctx_rcu st o name ctx =
        (0, some (ctx.getD [] ++
          [{ name := name, ftype := TypeCommon.tdynamic,
             get_size := FnPtr.dummy_get_size, record := FnPtr.dummy_record,
             get_value := FnPtr.dummy_get_value }]),
         allocSeq 4)) := by
  refine ⟨?_, ?_, ?_⟩
  · intro st o name ctx hne
    unfold lttng_ust_add_app_context_to_ctx_rcu
    split_ifs <;> simp [lttng_context_add_rcu, EEXIST, ENOMEM, EINVAL] at *
    by_cases happ : o.appendRet = 0
    · simp [happ]
    · simp [happ]
      omega
  · intro st o name ctx h1 h2 h3 h4 happ
    unfold lttng_ust_add_app_context_to_ctx_rcu
    by_cases hdup : (match ctx with | some c => lttng_find_context c name | none => false) = true
    · right
      simp [hdup, EEXIST]
    · left
      simp only [Bool.not_eq_true] at hdup
      simp [h1, h2, h3, h4, hdup, lttng_context_add_rcu, happ]
  · intro st o name ctx h1 h2 h3 h4 happ hdup hlook
    unfold lttng_ust_add_app_context_to_ctx_rcu
    simp [h1, h2, h3, h4, hdup, hlook, lttng_context_add_rcu, happ, dummyTriple]

theorem add_app_context_no_name_validation_w :
    (lttng_ust_add_app_context_to_ctx_rcu emptyRegState cleanOracle
        "noprefix:name".data none).1 ≠ -EINVAL ∧
    ((lttng_ust_add_app_context_to_ctx_rcu emptyRegState cleanOracle
        "noprefix:name".data none).1 = 0 ∨
      ((lttng_ust_add_app_context_to_ctx_rcu emptyRegState cleanOracle
        "noprefix:name".data none).1 = -EEXIST ∧
       (match (none : Option Ctx) with
        | some c => lttng_find_context c "noprefix:name".data
        | none => false) = true)) ∧
    lttng_ust_add_app_context_to_ctx_rcu emptyRegState cleanOracle
      "noprefix:name".data none =
      (0, some [{ name := "noprefix:name".data, ftype := TypeCommon.tdynamic,
                  get_size := FnPtr.dummy_get_size, record := FnPtr.dummy_record,
                  get_value := FnPtr.dummy_get_value }],
       allocSeq 4) :=
  ⟨add_app_context_no_name_validation.1 emptyRegState cleanOracle
      "noprefix:name".data none (by decide),
   add_app_context_no_name_validation.2.1 emptyRegState cleanOracle
      "noprefix:name".data none rfl rfl rfl rfl rfl,
   add_app_context_no_name_validation.2.2 emptyRegState cleanOracle
      "noprefix:name".data none rfl rfl rfl rfl rfl rfl (by decide)⟩

/-! ### Lemmas for the prefix-match lookup -/

theorem takeWhile_append_colon (a b : Str) (h : ':' ∉ a) :
    (a ++ ':' :: b).takeWhile (fun c => c != ':') = a := by
  induction a with
  | nil => simp [List.takeWhile]
  | cons x xs ih =>
    have hx : (x == ':') = false := by
      simp only [beq_eq_false_iff_ne, ne_eq]
      exact fun hc => h (hc ▸ List.mem_cons_self x xs)
    have hxs : ':' ∉ xs := fun hc => h (List.mem_cons_of_mem x hc)
    simp only [List.takeWhile, bne, hx, Bool.not_false]
    simpa [bne] using ih hxs

theorem strncmp_append_self (a b : Str) : strncmp a (a ++ b) a.length = 0 := by
  induction a with
  | nil => simp [strncmp]
  | cons x xs ih => simp [strncmp, ih]

theorem getBucket_setBucket_self (t : Htable) (i : Nat) (c : List Provider) :
    getBucket (setBucket t i c) i = c := by
  induction t with
  | nil => simp [setBucket, getBucket]
  | cons b t ih =>
    by_cases hb : b.1 = i
    · simp [setBucket, getBucket, hb]
    · simp [setBucket, getBucket, hb, ih]

theorem mem_providersOf_of_mem_getBucket {t : Htable} {i : Nat} {q : Provider}
    (h : q ∈ getBucket t i) : q ∈ providersOf t := by
  induction t with
  | nil => simp [getBucket] at h
  | cons b t ih =>
    simp only [getBucket] at h
    by_cases hb : b.1 = i
    · rw [if_pos hb] at h
      simp only [providersOf, List.map_cons, List.flatten_cons, List.mem_append]
      exact Or.inl h
    · rw [if_neg hb] at h
      simp only [providersOf, List.map_cons, List.flatten_cons, List.mem_append]
      exact Or.inr (ih h)

/-- C7: `lookup_provider_by_name` hashes and compares only the
substring preceding the first separator character: after a successful
registration of a provider under a bare name, looking up any qualified
`name:suffix` form returns that provider; and when no provider in the
table passes the prefix comparison, the lookup returns none. -/
theorem lookup_prefix_match :
    (∀ (p : Provider) (st st2 : RegState) (suffix : Str),
      lttng_ust_context_provider_register false p st = (0, st2) →
      lookup_provider_by_name st2.table (p.name ++ ':' :: suffix) = some p) ∧
    (∀ (t : Htable) (name : Str),
      (∀ q ∈ providersOf t,
        strncmp q.name name (name.takeWhile (fun c => c != ':')).length ≠ 0) →
      lookup_provider_by_name t name = none) := by
  constructor
  · intro p st st2 suffix hreg
    unfold lttng_ust_context_provider_register at hreg
    split_ifs at hreg with hpre hcolon hlock hcoll
    · simp [EINVAL] at hreg
    · simp [EINVAL] at hreg
    · exact hlock.elim
    · simp [EBUSY] at hreg
    · simp only [Prod.mk.injEq] at hreg
      obtain ⟨-, hst⟩ := hreg
      subst hst
      have hmem : ':' ∉ p.name := by simpa using hcolon
      unfold lookup_provider_by_name
      rw [takeWhile_append_colon p.name suffix hmem]
      simp only [getBucket_setBucket_self]
      rw [List.find?_cons_of_pos]
      simp only [beq_iff_eq]
      exact strncmp_append_self p.name (':' :: suffix)
  · intro t name hall
    unfold lookup_provider_by_name
    rw [List.find?_eq_none]
    intro q hq
    simp only [beq_iff_eq]
    intro hzero
    exact hall q (mem_providersOf_of_mem_getBucket hq) hzero

theorem lookup_prefix_match_w :
    lookup_provider_by_name registeredState.table
      ("$app.myprov".data ++ ':' :: "instA".data) = some sampleProvider ∧
    lookup_provider_by_name [] "$app.other".data = none :=
  ⟨lookup_prefix_match.1 sampleProvider emptyRegState registeredState "instA".data rfl,
   lookup_prefix_match.2 [] "$app.other".data (by decide)⟩

end LttngUst
